import Mathlib

/-!
# Verification of the sclib asynchronous client (src/sclib/asyncio.py)

Shallow embedding of the resolution-and-reconstruction pipeline of
`sclib/asyncio.py`.  Network I/O is modelled by oracle functions passed as
parameters: `fetch : String → Option String` returns `none` when the
underlying HTTP request raises (transport failure) and `some body`
otherwise.  Python byte strings are modelled as Lean `String`s (the code
only ever decodes them as UTF-8 text or forwards them opaquely).  Python
exceptions are modelled with the `PyErr` type below; a Python function that
can raise is embedded as a function into `Except PyErr _` or returns an
explicit outcome field.
-/

namespace Sclib

/-- Python exception classes that can arise in (or are asserted by the spec
about) `sclib/asyncio.py`.  The spec's error taxonomy names
(`DiscoveryError` etc.) are included so that claims about them can be
stated even though the code never raises them. -/
inductive PyErr
  | transportError
  | typeError
  | valueError
  | keyError
  | runtimeError
  | lookupError
  | streamError
  | resolutionError
  | discoveryError
deriving DecidableEq, Repr

/-! ## JSON dictionaries for track objects

A track dictionary from the catalog carries an `id`, optionally a `title`
key (its presence marks a fully materialized entry in
`Playlist.clean_attributes`) and a `kind` discriminator.  `title = none`
models the absence of the `'title'` key. -/

structure TrackData where
  id : Nat
  title : Option String
  kind : String
deriving DecidableEq, Repr

/-- The value `get_obj_from` produces for a batch-lookup URL: either the
Python literal `False` (any transport or parse failure) or the parsed JSON
array of track dictionaries. -/
inductive PyVal
  | pfalse
  | plist (items : List TrackData)
deriving DecidableEq, Repr

/-! ## `get_obj_from` (asyncio.py lines 41-47)

```python
async def get_obj_from(url):
    try:
        return json.loads(await get_resource(url))
    except Exception as exc:
        eprint(type(exc), str(exc))
        return False
```

The `try`/`except Exception` catches both the transport failure raised by
`get_resource` and the parse failure raised by `json.loads`; in either
case a diagnostic is printed to stderr and the value `False` is returned.
The embedding is a total function into `PyVal × List String` (returned
value, stderr lines): by construction no exception escapes. -/

def getObjFrom (fetch : String → Option String) (parse : String → Option PyVal)
    (url : String) : PyVal × List String :=
  match fetch url with
  | none => (PyVal.pfalse, ["transport exception"])
  | some body =>
    match parse body with
    | none => (PyVal.pfalse, ["json parse exception"])
    | some v => (v, [])

/-! ## Credential discovery (asyncio.py lines 22-29)

```python
async def fetch_soundcloud_client_id():
    url = random.choice(util.SCRAPE_URLS)
    page_text = await get_resource(url)
    script_urls = util.find_script_urls(page_text.decode())
    results = await asyncio.gather(*[get_resource(u) for u in script_urls])
    script_text = "".join([r.decode() for r in results])
    return util.find_client_id(script_text)
```

The randomly chosen scrape URL is a parameter (`url`); the collaborators
`util.find_script_urls` and `util.find_client_id` (whose source is not part
of the analysed file) are parameters `fsu` and `fci`.  `asyncio.gather` is
called WITHOUT `return_exceptions=True`, so the first exception raised by
any `get_resource` sub-task propagates out of `fetch_soundcloud_client_id`;
only when every fetch succeeds does `gather` return the list of bodies in
submission (= extraction) order.  `gatherAll` embeds exactly that. -/

def gatherAll : List (Option String) → Option (List String)
  | [] => some []
  | none :: _ => none
  | some b :: rest =>
    match gatherAll rest with
    | none => none
    | some bs => some (b :: bs)

def fetchSoundcloudClientId (fetch : String → Option String)
    (fsu : String → List String) (fci : String → Option String)
    (url : String) : Except PyErr (Option String) :=
  match fetch url with
  | none => Except.error PyErr.transportError
  | some page =>
    match gatherAll ((fsu page).map fetch) with
    | none => Except.error PyErr.transportError
    | some bodies => Except.ok (fci (String.join bodies))

/-! ## `Track.get_stream_url` (asyncio.py lines 144-154)

```python
async def get_stream_url(self):
    prog_url = self.get_prog_url()
    stream_response = await get_obj_from(prog_url)
    try:
        if not stream_response:
            raise ValueError('Stream response is empty')
        return stream_response['url']
    except Exception as exc:
        eprint(exc)
        return None
```

The progressive-stream descriptor response is a JSON dictionary, modelled
as an association list of string pairs; `SPyVal.sfalse` is the `False`
returned by `get_obj_from` on failure.  Python truthiness: `False` and the
empty dict are falsy.  `getStreamUrlBody` is the `try` body (which can
raise `ValueError` or `KeyError`); the surrounding handler converts every
exception into the return value `None`, so `getStreamUrl` never raises. -/

inductive SPyVal
  | sfalse
  | sdict (entries : List (String × String))
deriving DecidableEq, Repr

def lookupKey (k : String) : List (String × String) → Option String
  | [] => none
  | (k2, v) :: rest => if k2 = k then some v else lookupKey k rest

def getStreamUrlBody (resp : SPyVal) : Except PyErr String :=
  match resp with
  | SPyVal.sfalse => Except.error PyErr.valueError
  | SPyVal.sdict [] => Except.error PyErr.valueError
  | SPyVal.sdict d =>
    match lookupKey "url" d with
    | none => Except.error PyErr.keyError
    | some u => Except.ok u

def getStreamUrl (resp : SPyVal) : Except PyErr (Option String) :=
  match getStreamUrlBody resp with
  | Except.ok u => Except.ok (some u)
  | Except.error _ => Except.ok none

/-! ## `Track.write_mp3_to` (asyncio.py lines 109-142)

```python
async def write_mp3_to(self, file):
    try:
        file.seek(0)
        stream_url = await self.get_stream_url()
        track_bytes = await get_resource(stream_url)
        track_bytes_split = track_bytes.splitlines()
        chunks = []
        for chunk in track_bytes_split:
            if not chunk.startswith(b'#'):
                chunks.append(chunk.decode('utf-8'))
        for chunk in chunks:
            bytes = await get_resource(chunk)
            file.write(bytes)
        file.seek(0)
        album_artwork = None
        if self.artwork_url:
            album_artwork = await get_resource(
                util.get_large_artwork_url(self.artwork_url))
        self.write_track_id3(file, album_artwork)
    except (TypeError, ValueError) as exc:
        ...
        raise exc
```

The sink is modelled by the trace of operations performed on it
(`SinkEvent`): seeks, writes, and the final hand-off to the external
tag-embedding collaborator `write_track_id3` (opaque here, recorded as an
`embed` event carrying the artwork bytes).  `fetchBytes` models a
succeeding `get_resource` on segment/manifest/artwork URLs (the claim is
about successful reconstruction); `largeArt` models
`util.get_large_artwork_url`.  `splitlines` embeds Python
`bytes.splitlines`, which splits on LF, CR and CRLF and produces no
trailing empty line. -/

def splitlinesAux : List Char → List Char → List String
  | [], acc => if acc.isEmpty then [] else [String.mk acc.reverse]
  | '\r' :: '\n' :: rest, acc => String.mk acc.reverse :: splitlinesAux rest []
  | '\r' :: rest, acc => String.mk acc.reverse :: splitlinesAux rest []
  | '\n' :: rest, acc => String.mk acc.reverse :: splitlinesAux rest []
  | c :: rest, acc => splitlinesAux rest (c :: acc)

def splitlines (s : String) : List String :=
  splitlinesAux s.data []

/-- `chunk.startswith(b'#')`: the line's first byte is the comment marker. -/
def startsWithHash (s : String) : Bool :=
  match s.data with
  | [] => false
  | c :: _ => c = '#'

inductive SinkEvent
  | seek (pos : Nat)
  | write (data : String)
  | embed (artwork : Option String)
deriving DecidableEq, Repr

/-- The second `for` loop of `write_mp3_to`: fetch each segment URL in
order and write its bytes to the sink immediately. -/
def writeSegments (fetchBytes : String → String) : List String → List SinkEvent
  | [] => []
  | u :: rest => SinkEvent.write (fetchBytes u) :: writeSegments fetchBytes rest

def writeMp3To (fetchBytes : String → String) (streamResp : SPyVal)
    (artworkUrl : Option String) (largeArt : String → String) :
    List SinkEvent × Except PyErr Unit :=
  match getStreamUrl streamResp with
  | Except.error e => ([SinkEvent.seek 0], Except.error e)
  | Except.ok none =>
    ([SinkEvent.seek 0], Except.error PyErr.typeError)
  | Except.ok (some streamUrl) =>
    let manifest := fetchBytes streamUrl
    let chunks := (splitlines manifest).filter (fun l => ! startsWithHash l)
    let events := SinkEvent.seek 0 :: writeSegments fetchBytes chunks ++ [SinkEvent.seek 0]
    let artwork := artworkUrl.map (fun a => fetchBytes (largeArt a))
    (events ++ [SinkEvent.embed artwork], Except.ok ())

/-! ## Batch lookup: `SoundcloudAPI.get_tracks` (asyncio.py lines 89-103)

```python
async def get_tracks(self, *track_ids):
    if not self.client_id:
        await self.get_credentials()
    loop = asyncio.get_event_loop()
    tasks = []
    for url in self._format_get_tracks_urls(track_ids):
        task = loop.create_task(get_obj_from(url))
        tasks.append(task)
    response = await asyncio.gather(*tasks)
    tracks = list(itertools.chain.from_iterable(response))
    tracks = sorted(tracks, key=lambda x: track_ids.index(x['id']))
    return tracks
```

`asyncio.gather` returns the chunk results in task submission order
regardless of completion order, which the embedding reflects by mapping
the response oracle over the chunk list.  `resp` models
`get_obj_from` applied to a chunk's URL: `PyVal.pfalse` on any transport
or parse failure, `PyVal.plist items` on success. -/

/-- Modelled from the spec: `_format_get_tracks_urls` lives in the `sync`
module, which is not part of the analysed source file.  Per spec section
4.4 step 1 it partitions the ids into consecutive chunks of at most 100
(one request URL per chunk); the embedding works with the id chunks
directly.  The fuel (initial list length) makes the recursion structural;
each step consumes at least one id, so the fuel never runs out. -/
def chunkIdsAux : Nat → List Nat → List (List Nat)
  | 0, _ => []
  | _, [] => []
  | fuel + 1, ids => ids.take 100 :: chunkIdsAux fuel (ids.drop 100)

def chunkIds (ids : List Nat) : List (List Nat) :=
  chunkIdsAux ids.length ids

/-- `list(itertools.chain.from_iterable(response))`: flattening the
gathered responses.  When a chunk failed, its entry is the Python value
`False`, and iterating over a `bool` raises `TypeError`; entries are
consumed left to right, so the first `False` aborts the flattening. -/
def chainFromIterable : List PyVal → Except PyErr (List TrackData)
  | [] => Except.ok []
  | PyVal.pfalse :: _ => Except.error PyErr.typeError
  | PyVal.plist items :: rest =>
    match chainFromIterable rest with
    | Except.error e => Except.error e
    | Except.ok tail => Except.ok (items ++ tail)

/-- The sort key relation of `sorted(tracks, key=lambda x: track_ids.index(x['id']))`. -/
def keyLe (ids : List Nat) (a b : TrackData) : Prop :=
  ids.indexOf a.id ≤ ids.indexOf b.id

instance (ids : List Nat) : DecidableRel (keyLe ids) :=
  fun _ _ => Nat.decLe _ _

instance (ids : List Nat) : IsTotal TrackData (keyLe ids) :=
  ⟨fun _ _ => Nat.le_total _ _⟩

instance (ids : List Nat) : IsTrans TrackData (keyLe ids) :=
  ⟨fun _ _ _ h1 h2 => Nat.le_trans h1 h2⟩

/-- `sorted(tracks, key=lambda x: track_ids.index(x['id']))`.  Python's
`sorted` is a stable sort, embedded as `List.insertionSort` (which is
stable); `list.index` raises `ValueError` when an item's id does not occur
in `track_ids`, and `sorted` computes all keys, so any missing id makes
the whole call raise. -/
def sortTracks (ids : List Nat) (tracks : List TrackData) :
    Except PyErr (List TrackData) :=
  if tracks.all (fun t => t.id ∈ ids) then
    Except.ok (List.insertionSort (keyLe ids) tracks)
  else Except.error PyErr.valueError

def getTracks (resp : List Nat → PyVal) (trackIds : List Nat) :
    Except PyErr (List TrackData) :=
  match chainFromIterable ((chunkIds trackIds).map resp) with
  | Except.error e => Except.error e
  | Except.ok tracks => sortTracks trackIds tracks

/-! ## `Playlist.clean_attributes` (asyncio.py lines 173-195)

```python
async def clean_attributes(self):
    if self.ready:
        return
    self.ready = True
    track_objects = []
    incomplete_track_ids = []
    while self.tracks and 'title' in self.tracks[0]:
        track_objects.append(Track(obj=self.tracks.pop(0), client=self.client))
    while self.tracks:
        incomplete_track_ids.append(self.tracks.pop(0)['id'])
        if len(incomplete_track_ids) == self.RESOLVE_THRESHOLD or not self.tracks:
            if not self.client:
                return
            new_tracks = await self.client.get_tracks(*incomplete_track_ids)
            track_objects.extend([Track(obj=t, client=self.client) for t in new_tracks])
            incomplete_track_ids.clear()
    for track in track_objects:
        if track not in self.tracks:
            self.tracks.append(track)
```

A playlist entry is either a raw JSON dictionary (as placed there by the
`Playlist` constructor) or a `Track` object (as placed there by a previous
`clean_attributes` run).  `'title' in entry` and `entry['id']` applied to
a `Track` object raise `TypeError` (a `Track` is not a dict and defines no
container protocol); applied to a dictionary they test for / read the key.
The network call `self.client.get_tracks(...)` is the oracle `lookup`
(returning `Except.error` when the call raises).  The result of a call is
the mutated playlist state, the list of id batches passed to
`get_tracks`, and `none` for a normal return / `some e` when exception `e`
propagates.  Note: Python compares `track not in self.tracks` with object
identity for `Track` (no custom equality); the embedding uses structural
equality, which only matters for branches none of the verified claims
reach (on every reachable path `self.tracks` is empty at the final loop or
the loop is not executed). -/

def RESOLVE_THRESHOLD : Nat := 100

structure Track where
  obj : TrackData
deriving DecidableEq, Repr

inductive PEntry
  | dict (d : TrackData)
  | track (t : Track)
deriving DecidableEq, Repr

structure PlaylistState where
  ready : Bool
  tracks : List PEntry
  client : Bool
deriving DecidableEq, Repr

/-- First `while` loop: move the prefix of already-materialized entries
(dictionaries having a `'title'` key) into `track_objects`, wrapping each
in a `Track`.  Stops at the first dictionary without a title or at the end
of the list; encountering a `Track` object raises `TypeError` (the popped
prefix is lost with the raise, so the remaining entries are returned
alongside the error). -/
def popCompleted : List PEntry → List Track × List PEntry × Option PyErr
  | [] => ([], [], none)
  | PEntry.track t :: rest => ([], PEntry.track t :: rest, some PyErr.typeError)
  | PEntry.dict d :: rest =>
    if d.title.isSome then
      match popCompleted rest with
      | (objs, rem, e) => (Track.mk d :: objs, rem, e)
    else ([], PEntry.dict d :: rest, none)

inductive Phase2Exit
  | finished
  | noClient
  | raised (e : PyErr)
deriving DecidableEq, Repr

structure DrainResult where
  tracks : List PEntry
  objs : List Track
  requests : List (List Nat)
  exit : Phase2Exit
deriving DecidableEq, Repr

/-- Second `while` loop: pop each remaining entry, accumulate its id into
`incomplete_track_ids` (`pending`), and at every flush point (pending
reaches the threshold, or the entry list just became empty) return early
when no client is bound, otherwise issue one batch lookup. -/
def drainIncomplete (lookup : List Nat → Except PyErr (List TrackData))
    (client : Bool) :
    List PEntry → List Nat → List Track → List (List Nat) → DrainResult
  | [], _, objs, reqs => ⟨[], objs, reqs, Phase2Exit.finished⟩
  | PEntry.track t :: rest, _, objs, reqs =>
    ⟨PEntry.track t :: rest, objs, reqs, Phase2Exit.raised PyErr.typeError⟩
  | PEntry.dict d :: rest, pending, objs, reqs =>
    let pending2 := pending ++ [d.id]
    if pending2.length = RESOLVE_THRESHOLD ∨ rest = [] then
      if client then
        match lookup pending2 with
        | Except.error e =>
          ⟨rest, objs, reqs ++ [pending2], Phase2Exit.raised e⟩
        | Except.ok newTracks =>
          drainIncomplete lookup client rest []
            (objs ++ newTracks.map Track.mk) (reqs ++ [pending2])
      else ⟨rest, objs, reqs, Phase2Exit.noClient⟩
    else drainIncomplete lookup client rest pending2 objs reqs

/-- Final `for` loop: append each collected `Track` object not already
present in the entry list. -/
def appendMissing : List PEntry → List Track → List PEntry
  | tracks, [] => tracks
  | tracks, t :: rest =>
    if PEntry.track t ∈ tracks then appendMissing tracks rest
    else appendMissing (tracks ++ [PEntry.track t]) rest

structure CAResult where
  state : PlaylistState
  requests : List (List Nat)
  outcome : Option PyErr
deriving DecidableEq, Repr

def cleanAttributes (lookup : List Nat → Except PyErr (List TrackData))
    (s : PlaylistState) : CAResult :=
  if s.ready then ⟨s, [], none⟩
  else
    match popCompleted s.tracks with
    | (_, rem, some e) => ⟨⟨true, rem, s.client⟩, [], some e⟩
    | (objs1, rem, none) =>
      let r := drainIncomplete lookup s.client rem [] objs1 []
      match r.exit with
      | Phase2Exit.raised e => ⟨⟨true, r.tracks, s.client⟩, r.requests, some e⟩
      | Phase2Exit.noClient => ⟨⟨true, r.tracks, s.client⟩, r.requests, none⟩
      | Phase2Exit.finished =>
        ⟨⟨true, appendMissing r.tracks r.objs, s.client⟩, r.requests, none⟩

/-! ## `SoundcloudAPI.resolve` (asyncio.py lines 63-78)

```python
async def resolve(self, url):
    if not self.client_id:
        await self.get_credentials()
    full_url = f"https://api-v2.soundcloud.com/tracks?ids={await self.get_track_id(url)}&client_id={self.client_id}"
    obj = await get_obj_from(full_url)
    if not obj:
        raise ValueError('Could not resolve url')
    obj = obj[0]
    if obj['kind'] == 'track':
        return Track(obj=obj, client=self)
    if obj['kind'] in ('playlist', 'system-playlist'):
        playlist = Playlist(obj=obj, client=self)
        await playlist.clean_attributes()
        return playlist
```

When neither branch matches, control falls off the end of the function and
Python returns `None` — modelled as `Except.ok none`.  Parameters:
`clientId` is the client's current credential; `discovery` the outcome of
`get_credentials` were it needed (`Except.ok none` models
`fetch_soundcloud_client_id` finding no token, which `get_credentials`
turns into `RuntimeError`); `trackId` the outcome of
`get_track_id(url)` (network + HTML metadata extraction); `respOf` the
`get_obj_from` result for the lookup URL of a given id.  A resolved
dictionary (`SCDict`) carries the entity fields and, for playlists, the
`'tracks'` array that the `Playlist` constructor (in the `sync` module,
outside the analysed file) copies into the playlist's entry list. -/

structure SCDict where
  data : TrackData
  tracks : List TrackData
deriving DecidableEq, Repr

inductive RPyVal
  | rfalse
  | rlist (items : List SCDict)
deriving DecidableEq, Repr

inductive Resolved
  | track (t : Track)
  | playlist (p : PlaylistState)
deriving DecidableEq, Repr

def resolve (clientId : Option String) (discovery : Except PyErr (Option String))
    (trackId : Except PyErr Nat) (respOf : Nat → RPyVal)
    (lookup : List Nat → Except PyErr (List TrackData)) :
    Except PyErr (Option Resolved) :=
  let creds : Except PyErr String :=
    match clientId with
    | some c => Except.ok c
    | none =>
      match discovery with
      | Except.error e => Except.error e
      | Except.ok none => Except.error PyErr.runtimeError
      | Except.ok (some c) => Except.ok c
  match creds with
  | Except.error e => Except.error e
  | Except.ok _ =>
    match trackId with
    | Except.error e => Except.error e
    | Except.ok tid =>
      match respOf tid with
      | RPyVal.rfalse => Except.error PyErr.valueError
      | RPyVal.rlist [] => Except.error PyErr.valueError
      | RPyVal.rlist (d :: _) =>
        if d.data.kind = "track" then
          Except.ok (some (Resolved.track (Track.mk d.data)))
        else if d.data.kind = "playlist" ∨ d.data.kind = "system-playlist" then
          let p : PlaylistState :=
            ⟨false, d.tracks.map PEntry.dict, true⟩
          let r := cleanAttributes lookup p
          match r.outcome with
          | some e => Except.error e
          | none => Except.ok (some (Resolved.playlist r.state))
        else Except.ok none

/-! # Theorems -/

/-! ## Helper lemmas -/

theorem gatherAll_of_mem_none (l : List (Option String)) (h : none ∈ l) :
    gatherAll l = none := by
  induction l with
  | nil => cases h
  | cons v rest ih =>
    cases v with
    | none => rfl
    | some b =>
      rcases List.mem_cons.mp h with h1 | h1
      · cases h1
      · simp [gatherAll, ih h1]

theorem gatherAll_map_some (bodies : List String) :
    gatherAll (bodies.map some) = some bodies := by
  induction bodies with
  | nil => rfl
  | cons b rest ih => simp [gatherAll, ih]

/-! ## C10: `get_obj_from` never raises -/

/-- C10: for every url, `get_obj_from` never propagates an exception (the
embedding is a total function into `PyVal × List String`, mirroring that
`except Exception` catches everything): any transport failure (the fetch
returns `none`) or parse failure is reported to stderr (a non-empty
stderr trace) and returned as the value `False`, so transport failures
and malformed responses are indistinguishable to callers looking at the
returned value. -/
theorem getObjFrom_never_raises (fetch : String → Option String)
    (parse : String → Option PyVal) (url : String)
    (h : fetch url = none ∨ ∃ b, fetch url = some b ∧ parse b = none) :
    (getObjFrom fetch parse url).1 = PyVal.pfalse ∧
      (getObjFrom fetch parse url).2 ≠ [] := by
  rcases h with h | ⟨b, hb, hp⟩
  · simp [getObjFrom, h]
  · simp [getObjFrom, hb, hp]

/-- Witness for C10 at a concrete transport failure and a concrete parse
failure, instantiating both disjuncts of the hypothesis. -/
theorem getObjFrom_never_raises_witness :
    ((fun u : String => if u = "good" then some "body" else none) "bad" = none ∨
      ∃ b, (fun u : String => if u = "good" then some "body" else none) "bad" =
          some b ∧ (fun _ : String => (none : Option PyVal)) b = none) ∧
      (getObjFrom (fun u => if u = "good" then some "body" else none)
          (fun _ => none) "bad").1 = PyVal.pfalse ∧
      (getObjFrom (fun u => if u = "good" then some "body" else none)
          (fun _ => none) "bad").2 ≠ [] := by
  refine ⟨Or.inl rfl, ?_⟩
  exact getObjFrom_never_raises _ _ "bad" (Or.inl rfl)

/-! ## C8: `get_stream_url` on an empty or url-less descriptor -/

/-- C8 counterexample: on an empty descriptor response the code does not
fail with a `StreamError` (or any error): `get_stream_url` swallows the
internal `ValueError` and returns `None` normally, so the call site
proceeds with a `None` stream URL instead of catching an error. -/
theorem getStreamUrl_counterexample :
    getStreamUrl SPyVal.sfalse = Except.ok none ∧
      getStreamUrl SPyVal.sfalse ≠ Except.error PyErr.streamError :=
  ⟨rfl, fun h => Except.noConfusion h⟩

/-- C8 amended: if the progressive-stream descriptor response is empty
(`False` from `get_obj_from`, or an empty dictionary) or lacks a `url`
field, `get_stream_url` returns `None` normally (the internal
`ValueError`/`KeyError` is caught, printed, and converted to `None`); no
`StreamError` is raised, and the call site observes `None` rather than a
recoverable typed error. -/
theorem getStreamUrl_swallows (resp : SPyVal)
    (h : resp = SPyVal.sfalse ∨ resp = SPyVal.sdict [] ∨
        ∃ d, resp = SPyVal.sdict d ∧ lookupKey "url" d = none) :
    getStreamUrl resp = Except.ok none := by
  rcases h with h | h | ⟨d, hd, hl⟩
  · subst h; rfl
  · subst h; rfl
  · subst hd
    cases d with
    | nil => rfl
    | cons p rest => simp [getStreamUrl, getStreamUrlBody, hl]

/-- Witness for C8 amended at a concrete descriptor lacking a `url` field. -/
theorem getStreamUrl_swallows_witness :
    ((SPyVal.sdict [("quality", "sq")] : SPyVal) = SPyVal.sfalse ∨
      SPyVal.sdict [("quality", "sq")] = SPyVal.sdict [] ∨
      ∃ d, SPyVal.sdict [("quality", "sq")] = SPyVal.sdict d ∧
          lookupKey "url" d = none) ∧
      getStreamUrl (SPyVal.sdict [("quality", "sq")]) = Except.ok none := by
  refine ⟨Or.inr (Or.inr ⟨[("quality", "sq")], rfl, rfl⟩), ?_⟩
  exact getStreamUrl_swallows _ (Or.inr (Or.inr ⟨[("quality", "sq")], rfl, rfl⟩))

/-! ## C2: credential discovery and failing script fetches -/

/-- Concrete scenario for C2: a catalog page yielding two script URLs of
which the first fetch fails and the second succeeds with a body in which
the token extractor finds the token. -/
def exFetchC2 : String → Option String :=
  fun u => if u = "page" then some "PAGE" else if u = "s2" then some "BODY2" else none

def exFsuC2 : String → List String := fun _ => ["s1", "s2"]

def exFciC2 : String → Option String :=
  fun t => if t = "BODY2" then some "tok" else none

/-- C2 counterexample: the token is found in the successfully fetched
body alone, yet discovery does not succeed: `asyncio.gather` (without
`return_exceptions`) propagates the failed fetch's exception, aborting
`fetch_soundcloud_client_id` before any concatenation or extraction. -/
theorem fetchSoundcloudClientId_counterexample :
    exFciC2 "BODY2" = some "tok" ∧
      exFetchC2 "s1" = none ∧ exFetchC2 "s2" = some "BODY2" ∧
      exFsuC2 "PAGE" = ["s1", "s2"] ∧
      fetchSoundcloudClientId exFetchC2 exFsuC2 exFciC2 "page" =
        Except.error PyErr.transportError :=
  ⟨rfl, rfl, rfl, rfl, rfl⟩

/-- C2 amended: script fetches are not best-effort. If any individual
script-URL fetch fails, `fetch_soundcloud_client_id` aborts with that
transport failure; only when every fetch succeeds does it concatenate the
bodies in extraction order and extract the token from the blob. -/
theorem fetchSoundcloudClientId_gather (fetch : String → Option String)
    (fsu : String → List String) (fci : String → Option String)
    (url page : String) (hp : fetch url = some page) :
    ((∃ u ∈ fsu page, fetch u = none) →
        fetchSoundcloudClientId fetch fsu fci url =
          Except.error PyErr.transportError) ∧
      (∀ bodies : List String, (fsu page).map fetch = bodies.map some →
        fetchSoundcloudClientId fetch fsu fci url =
          Except.ok (fci (String.join bodies))) := by
  constructor
  · rintro ⟨u, hu, hfail⟩
    have hmem : none ∈ (fsu page).map fetch := by
      rw [← hfail]
      exact List.mem_map_of_mem fetch hu
    simp [fetchSoundcloudClientId, hp, gatherAll_of_mem_none _ hmem]
  · intro bodies hb
    simp [fetchSoundcloudClientId, hp, hb, gatherAll_map_some]

/-- Witness for C2 amended, at the concrete two-script scenario. -/
theorem fetchSoundcloudClientId_gather_witness :
    exFetchC2 "page" = some "PAGE" ∧
      (((∃ u ∈ exFsuC2 "PAGE", exFetchC2 u = none) →
          fetchSoundcloudClientId exFetchC2 exFsuC2 exFciC2 "page" =
            Except.error PyErr.transportError) ∧
        (∀ bodies : List String, (exFsuC2 "PAGE").map exFetchC2 = bodies.map some →
          fetchSoundcloudClientId exFetchC2 exFsuC2 exFciC2 "page" =
            Except.ok (exFciC2 (String.join bodies)))) :=
  ⟨rfl, fetchSoundcloudClientId_gather exFetchC2 exFsuC2 exFciC2 "page" "PAGE" rfl⟩

/-! ## C6: `resolve` on an unsupported discriminator -/

/-- C6 counterexample: a resolved response whose `kind` is `user` (neither
`track` nor `playlist` nor `system-playlist`) makes `resolve` fall off the
end of the function and return `None` normally — no unsupported-kind error
(nor any error) is raised. -/
theorem resolve_unsupported_counterexample :
    resolve (some "cid") (Except.ok none) (Except.ok 7)
        (fun _ => RPyVal.rlist [⟨⟨7, some "t", "user"⟩, []⟩])
        (fun _ => Except.error PyErr.typeError) = Except.ok none := rfl

/-- C6 amended: for every resolved response whose discriminator is
neither `track` nor `playlist` nor `system-playlist`, `resolve` silently
returns the absent object `None` (a normal return, not an error of any
kind). -/
theorem resolve_unsupported_kind (cid : String)
    (discovery : Except PyErr (Option String)) (tid : Nat)
    (respOf : Nat → RPyVal) (lookup : List Nat → Except PyErr (List TrackData))
    (d : SCDict) (rest : List SCDict)
    (hr : respOf tid = RPyVal.rlist (d :: rest))
    (hk1 : d.data.kind ≠ "track") (hk2 : d.data.kind ≠ "playlist")
    (hk3 : d.data.kind ≠ "system-playlist") :
    resolve (some cid) discovery (Except.ok tid) respOf lookup =
      Except.ok none := by
  simp [resolve, hr, hk1, hk2, hk3]

/-- Witness for C6 amended at the concrete `user`-kind response. -/
theorem resolve_unsupported_kind_witness :
    ((fun _ : Nat => RPyVal.rlist [⟨⟨7, some "t", "user"⟩, []⟩]) 7 =
        RPyVal.rlist (⟨⟨7, some "t", "user"⟩, []⟩ :: []) ∧
      (⟨⟨7, some "t", "user"⟩, []⟩ : SCDict).data.kind ≠ "track" ∧
      (⟨⟨7, some "t", "user"⟩, []⟩ : SCDict).data.kind ≠ "playlist" ∧
      (⟨⟨7, some "t", "user"⟩, []⟩ : SCDict).data.kind ≠ "system-playlist") ∧
      resolve (some "cid") (Except.ok none) (Except.ok 7)
          (fun _ => RPyVal.rlist [⟨⟨7, some "t", "user"⟩, []⟩])
          (fun _ => Except.ok []) = Except.ok none := by
  refine ⟨⟨rfl, by decide, by decide, by decide⟩, ?_⟩
  exact resolve_unsupported_kind "cid" (Except.ok none) 7 _ _ _ _ rfl
    (by decide) (by decide) (by decide)

/-! ## C7: `clean_attributes` with no bound client -/

theorem popCompleted_dicts :
    ∀ l : List PEntry, (∀ e ∈ l, ∃ d, e = PEntry.dict d) →
      (popCompleted l).2.2 = none ∧
        ∀ e ∈ (popCompleted l).2.1, ∃ d, e = PEntry.dict d
  | [], _ => ⟨rfl, fun e h => absurd h (List.not_mem_nil e)⟩
  | PEntry.track t :: rest, hd => by
    rcases hd (PEntry.track t) (List.mem_cons_self _ _) with ⟨d, hx⟩
    exact PEntry.noConfusion hx
  | PEntry.dict d :: rest, hd => by
    have hrest : ∀ e ∈ rest, ∃ d2, e = PEntry.dict d2 :=
      fun e he => hd e (List.mem_cons_of_mem _ he)
    by_cases ht : d.title.isSome
    · have ih := popCompleted_dicts rest hrest
      simp only [popCompleted, if_pos ht]
      rcases hp : popCompleted rest with ⟨objs, rem, e⟩
      rw [hp] at ih
      exact ih
    · rw [popCompleted, if_neg ht]
      exact ⟨rfl, hd⟩

theorem drainIncomplete_noClient (lookup : List Nat → Except PyErr (List TrackData)) :
    ∀ (l : List PEntry) (pending : List Nat) (objs : List Track)
      (reqs : List (List Nat)), (∀ e ∈ l, ∃ d, e = PEntry.dict d) →
      (drainIncomplete lookup false l pending objs reqs).requests = reqs ∧
        ∀ e2, (drainIncomplete lookup false l pending objs reqs).exit ≠
          Phase2Exit.raised e2
  | [], _, _, _, _ => ⟨rfl, fun _ h => Phase2Exit.noConfusion h⟩
  | PEntry.track t :: rest, _, _, _, hd => by
    rcases hd (PEntry.track t) (List.mem_cons_self _ _) with ⟨d, hx⟩
    exact PEntry.noConfusion hx
  | PEntry.dict d :: rest, pending, objs, reqs, hd => by
    have hrest : ∀ e ∈ rest, ∃ d2, e = PEntry.dict d2 :=
      fun e he => hd e (List.mem_cons_of_mem _ he)
    by_cases hflush : (pending ++ [d.id]).length = RESOLVE_THRESHOLD ∨ rest = []
    · have hflush2 : pending.length + 1 = RESOLVE_THRESHOLD ∨ rest = [] := by
        simpa using hflush
      simp [drainIncomplete, hflush2]
    · simp only [drainIncomplete, if_neg hflush]
      exact drainIncomplete_noClient lookup rest (pending ++ [d.id]) objs reqs hrest

/-- C7 counterexample: a not-yet-ready collection holding one
unmaterialized (id-only) entry and no bound client: `clean_attributes`
returns normally (`outcome = none`) with no network request and no
`ResolutionError`; the entry is silently dropped from the collection. -/
theorem cleanAttributes_noClient_counterexample :
    cleanAttributes (fun _ => Except.error PyErr.typeError)
        ⟨false, [PEntry.dict ⟨1, none, "track"⟩], false⟩ =
      ⟨⟨true, [], false⟩, [], none⟩ ∧
      (cleanAttributes (fun _ => Except.error PyErr.typeError)
          ⟨false, [PEntry.dict ⟨1, none, "track"⟩], false⟩).outcome ≠
        some PyErr.resolutionError :=
  ⟨rfl, fun h => by cases h⟩

/-- C7 amended: for every not-yet-ready collection whose entries are raw
dictionaries and that has no bound client, `clean_attributes` returns
silently: it raises no exception (in particular no `ResolutionError`) and
issues no network request; termination is by construction (the embedding
is a total function), so it does not loop forever either. -/
theorem cleanAttributes_noClient (lookup : List Nat → Except PyErr (List TrackData))
    (s : PlaylistState) (h1 : s.ready = false) (h2 : s.client = false)
    (hd : ∀ e ∈ s.tracks, ∃ d, e = PEntry.dict d) :
    (cleanAttributes lookup s).outcome = none ∧
      (cleanAttributes lookup s).requests = [] := by
  rcases popCompleted_dicts s.tracks hd with ⟨hpc, hrem⟩
  rcases hp : popCompleted s.tracks with ⟨objs, rem, e⟩
  rw [hp] at hpc hrem
  simp only at hpc hrem
  subst hpc
  rcases hdr : drainIncomplete lookup false rem [] objs [] with ⟨t2, o2, r2, ex⟩
  rcases drainIncomplete_noClient lookup rem [] objs [] hrem with ⟨hreq, hexit⟩
  rw [hdr] at hreq hexit
  simp only at hreq hexit
  subst hreq
  simp only [cleanAttributes, h1, h2, hp, hdr, Bool.false_eq_true, if_false]
  cases ex with
  | finished => exact ⟨rfl, rfl⟩
  | noClient => exact ⟨rfl, rfl⟩
  | raised e2 => exact absurd rfl (hexit e2)

/-- Witness for C7 amended at the concrete client-less collection. -/
theorem cleanAttributes_noClient_witness :
    ((⟨false, [PEntry.dict ⟨1, none, "track"⟩], false⟩ : PlaylistState).ready = false ∧
      (⟨false, [PEntry.dict ⟨1, none, "track"⟩], false⟩ : PlaylistState).client = false ∧
      ∀ e ∈ (⟨false, [PEntry.dict ⟨1, none, "track"⟩], false⟩ : PlaylistState).tracks,
        ∃ d, e = PEntry.dict d) ∧
      (cleanAttributes (fun _ => Except.ok [])
          ⟨false, [PEntry.dict ⟨1, none, "track"⟩], false⟩).outcome = none ∧
      (cleanAttributes (fun _ => Except.ok [])
          ⟨false, [PEntry.dict ⟨1, none, "track"⟩], false⟩).requests = [] := by
  refine ⟨⟨rfl, rfl, ?_⟩, ?_⟩
  · intro e he
    rcases List.mem_singleton.mp he with h
    exact ⟨⟨1, none, "track"⟩, h⟩
  · exact cleanAttributes_noClient (fun _ => Except.ok []) _ rfl rfl
      (by intro e he; rcases List.mem_singleton.mp he with h
          exact ⟨⟨1, none, "track"⟩, h⟩)

/-! ## C3 and C9: the readiness flag after `clean_attributes` -/

/-- Whatever happens during a `clean_attributes` call — normal
completion, the silent no-client return, or a propagated exception — the
readiness flag of the resulting playlist state is set: it is set before
any work is done and never cleared. -/
theorem cleanAttributes_state_ready (lookup : List Nat → Except PyErr (List TrackData))
    (s : PlaylistState) : (cleanAttributes lookup s).state.ready = true := by
  unfold cleanAttributes
  by_cases h : s.ready
  · rw [if_pos h]
    exact h
  · rw [if_neg h]
    rcases hp : popCompleted s.tracks with ⟨objs, rem, e⟩
    cases e with
    | some e2 => rfl
    | none =>
      cases hex : (drainIncomplete lookup s.client rem [] objs []).exit with
      | finished => simp [hex]
      | noClient => simp [hex]
      | raised e2 => simp [hex]

/-- A `clean_attributes` call on an already-ready playlist returns
immediately: the state is unchanged and no request is issued. -/
theorem cleanAttributes_of_ready (lookup : List Nat → Except PyErr (List TrackData))
    (s : PlaylistState) (h : s.ready = true) :
    cleanAttributes lookup s = ⟨s, [], none⟩ := by
  unfold cleanAttributes
  rw [if_pos h]

/-- C3: collection completion is idempotent. After a first
`clean_attributes` call that returned normally, a second call (under any
behaviour of the network, `lookup2`) returns immediately: the resulting
state is exactly the state left by the first call (an identical entry
sequence) and the request list of the second call is empty (no further
network calls). -/
theorem cleanAttributes_idempotent (lookup lookup2 : List Nat → Except PyErr (List TrackData))
    (s : PlaylistState) (h : (cleanAttributes lookup s).outcome = none) :
    cleanAttributes lookup2 (cleanAttributes lookup s).state =
      ⟨(cleanAttributes lookup s).state, [], none⟩ :=
  cleanAttributes_of_ready lookup2 _ (cleanAttributes_state_ready lookup s)

/-- Witness for C3: a playlist with one materialized and one
unmaterialized entry; the first call issues one batch request and
succeeds, the second call is a no-op. -/
theorem cleanAttributes_idempotent_witness :
    (cleanAttributes (fun _ => Except.ok [⟨2, some "u", "track"⟩])
        ⟨false, [PEntry.dict ⟨1, some "t", "track"⟩, PEntry.dict ⟨2, none, "track"⟩],
          true⟩).outcome = none ∧
      cleanAttributes (fun _ => Except.ok [⟨2, some "u", "track"⟩])
          (cleanAttributes (fun _ => Except.ok [⟨2, some "u", "track"⟩])
            ⟨false, [PEntry.dict ⟨1, some "t", "track"⟩, PEntry.dict ⟨2, none, "track"⟩],
              true⟩).state =
        ⟨(cleanAttributes (fun _ => Except.ok [⟨2, some "u", "track"⟩])
            ⟨false, [PEntry.dict ⟨1, some "t", "track"⟩, PEntry.dict ⟨2, none, "track"⟩],
              true⟩).state, [], none⟩ :=
  ⟨rfl, cleanAttributes_idempotent _ _ _ rfl⟩

/-- C9 counterexample: a playlist with one unmaterialized entry whose
batch lookup raises.  The first call fails partway with the entry already
consumed (`tracks = []`) and the state marked ready; a second call — even
with a now-working lookup that could materialize id 1 — returns
immediately with no requests and the entry still lost, so re-invocation
cannot perform the remaining work. -/
theorem cleanAttributes_retry_counterexample :
    cleanAttributes (fun _ => Except.error PyErr.typeError)
        ⟨false, [PEntry.dict ⟨1, none, "track"⟩], true⟩ =
      ⟨⟨true, [], true⟩, [[1]], some PyErr.typeError⟩ ∧
      cleanAttributes (fun _ => Except.ok [⟨1, some "t", "track"⟩])
          ⟨true, [], true⟩ =
        ⟨⟨true, [], true⟩, [], none⟩ :=
  ⟨rfl, rfl⟩

/-- C9 amended: if completion fails partway, the collection is left
permanently marked ready (with the consumed entries dropped); invoking
`clean_attributes` again — under any network behaviour — returns
immediately, issues no request, and leaves the state unchanged, so the
remaining work is never performed by re-invocation. -/
theorem cleanAttributes_failure_sticky (lookup lookup2 : List Nat → Except PyErr (List TrackData))
    (s : PlaylistState) (e : PyErr)
    (h : (cleanAttributes lookup s).outcome = some e) :
    (cleanAttributes lookup s).state.ready = true ∧
      cleanAttributes lookup2 (cleanAttributes lookup s).state =
        ⟨(cleanAttributes lookup s).state, [], none⟩ :=
  ⟨cleanAttributes_state_ready lookup s,
    cleanAttributes_of_ready lookup2 _ (cleanAttributes_state_ready lookup s)⟩

/-- Witness for C9 amended at the concrete failing-lookup playlist. -/
theorem cleanAttributes_failure_sticky_witness :
    (cleanAttributes (fun _ => Except.error PyErr.typeError)
        ⟨false, [PEntry.dict ⟨1, none, "track"⟩], true⟩).outcome =
      some PyErr.typeError ∧
      (cleanAttributes (fun _ => Except.error PyErr.typeError)
          ⟨false, [PEntry.dict ⟨1, none, "track"⟩], true⟩).state.ready = true ∧
      cleanAttributes (fun _ => Except.ok [⟨1, some "t", "track"⟩])
          (cleanAttributes (fun _ => Except.error PyErr.typeError)
            ⟨false, [PEntry.dict ⟨1, none, "track"⟩], true⟩).state =
        ⟨(cleanAttributes (fun _ => Except.error PyErr.typeError)
            ⟨false, [PEntry.dict ⟨1, none, "track"⟩], true⟩).state, [], none⟩ :=
  ⟨rfl, cleanAttributes_failure_sticky _ _ _ PyErr.typeError rfl⟩

/-! ## C4: stream reconstruction trace -/

theorem writeSegments_eq_map (fetchBytes : String → String) (l : List String) :
    writeSegments fetchBytes l = l.map (fun u => SinkEvent.write (fetchBytes u)) := by
  induction l with
  | nil => rfl
  | cons u rest ih => simp [writeSegments, ih]

/-- C4: whenever the stream URL resolves, `write_mp3_to` produces exactly
this sink trace: a seek to the start, then — for each line of the fetched
manifest that does not begin with the comment marker, in manifest line
order — one write of exactly the bytes fetched for that line (segments
are fetched sequentially, one write per segment, comment lines never
written), then a seek back to the start, after which the sink is handed to
the external tag-embedding collaborator. -/
theorem writeMp3To_trace (fetchBytes : String → String) (streamResp : SPyVal)
    (artworkUrl : Option String) (largeArt : String → String) (streamUrl : String)
    (h : getStreamUrl streamResp = Except.ok (some streamUrl)) :
    writeMp3To fetchBytes streamResp artworkUrl largeArt =
      (SinkEvent.seek 0 ::
          ((splitlines (fetchBytes streamUrl)).filter
              (fun l => ! startsWithHash l)).map
            (fun u => SinkEvent.write (fetchBytes u)) ++
          ([SinkEvent.seek 0] ++
            [SinkEvent.embed (artworkUrl.map (fun a => fetchBytes (largeArt a)))]),
        Except.ok ()) := by
  unfold writeMp3To
  rw [h]
  simp [writeSegments_eq_map]

/-- Witness for C4: a three-line manifest whose first line is a comment;
the trace contains exactly the two segment writes in manifest order
between the two seeks. -/
theorem writeMp3To_trace_witness :
    getStreamUrl (SPyVal.sdict [("url", "m")]) = Except.ok (some "m") ∧
      writeMp3To
          (fun u => if u = "m" then "#EXTM3U\ns1\ns2"
            else if u = "s1" then "AA" else if u = "s2" then "BB" else "")
          (SPyVal.sdict [("url", "m")]) none (fun a => a) =
        ([SinkEvent.seek 0, SinkEvent.write "AA", SinkEvent.write "BB",
            SinkEvent.seek 0, SinkEvent.embed none], Except.ok ()) := by
  constructor
  · rfl
  · have h := writeMp3To_trace
      (fun u => if u = "m" then "#EXTM3U\ns1\ns2"
        else if u = "s1" then "AA" else if u = "s2" then "BB" else "")
      (SPyVal.sdict [("url", "m")]) none (fun a => a) "m" rfl
    rw [h]
    rfl

/-! ## C1 and C5: batch lookup -/

theorem chainFromIterable_ok (chunks : List (List TrackData)) :
    chainFromIterable (chunks.map PyVal.plist) = Except.ok chunks.flatten := by
  induction chunks with
  | nil => rfl
  | cons c rest ih => simp [chainFromIterable, ih]

theorem chainFromIterable_pfalse (l : List PyVal) (h : PyVal.pfalse ∈ l) :
    chainFromIterable l = Except.error PyErr.typeError := by
  induction l with
  | nil => cases h
  | cons v rest ih =>
    cases v with
    | pfalse => rfl
    | plist items =>
      rcases List.mem_cons.mp h with h1 | h1
      · exact PyVal.noConfusion h1
      · simp [chainFromIterable, ih h1]

theorem mapIndexOf_eq_range (ids : List Nat) (hn : ids.Nodup) :
    (ids.map fun a => ids.indexOf a) = List.range ids.length := by
  apply List.ext_getElem
  · simp
  · intro i h1 h2
    simp only [List.getElem_map, List.getElem_range]
    exact List.indexOf_getElem hn i (by simpa using h1)

/-- The core reordering fact behind `sorted(tracks, key=lambda x:
track_ids.index(x['id']))`: when the ids of the flattened responses are a
permutation of the (duplicate-free) requested ids, the sorted list's ids
are exactly the requested ids in their original order. -/
theorem insertionSort_key_order (ids : List Nat) (l : List TrackData)
    (hn : ids.Nodup) (hp : (l.map TrackData.id).Perm ids) :
    (List.insertionSort (keyLe ids) l).map TrackData.id = ids := by
  set out := List.insertionSort (keyLe ids) l with hout
  have hperm : out.Perm l := List.perm_insertionSort (keyLe ids) l
  have hsorted : List.Sorted (keyLe ids) out := List.sorted_insertionSort (keyLe ids) l
  have hkeys_sorted : List.Sorted (· ≤ ·) (out.map fun t => ids.indexOf t.id) :=
    List.Pairwise.map _ (fun a b h => h) hsorted
  have h4 : (out.map fun t => ids.indexOf t.id).Perm (List.range ids.length) := by
    have h2 := hp.map fun a => ids.indexOf a
    rw [mapIndexOf_eq_range ids hn] at h2
    have h5 : (out.map fun t => ids.indexOf t.id).Perm
        ((l.map TrackData.id).map fun a => ids.indexOf a) := by
      rw [List.map_map]
      exact hperm.map _
    exact h5.trans h2
  have hkeys : (out.map fun t => ids.indexOf t.id) = List.range ids.length :=
    List.eq_of_perm_of_sorted h4 hkeys_sorted (List.sorted_le_range _)
  have hlen_out : out.length = ids.length := by
    have e1 := hperm.length_eq
    have e2 := hp.length_eq
    simp only [List.length_map] at e2
    rw [e1, e2]
  apply List.ext_getElem
  · simp [hlen_out]
  · intro i h1 h2
    have hio : i < out.length := by simpa using h1
    have h7 : ids.indexOf out[i].id = i := by
      have h8 := congrArg (fun t : List Nat => t[i]?) hkeys
      simp only at h8
      rw [List.getElem?_map, List.getElem?_eq_getElem hio,
        List.getElem?_range h2] at h8
      simpa using h8
    have h9 : ids.indexOf out[i].id < ids.length := by
      rw [h7]
      exact h2
    have h10 := List.indexOf_get h9
    have h11 : (⟨ids.indexOf out[i].id, h9⟩ : Fin ids.length) = ⟨i, h2⟩ :=
      Fin.ext h7
    rw [h11] at h10
    simp only [List.getElem_map]
    exact h10.symm

/-- C1: for every duplicate-free id list in which every id resolves (the
ids of the flattened chunk responses are a permutation of the requested
ids — each requested id appears in exactly one chunk response), the batch
lookup returns the flattened items reordered so that their id sequence
equals the input id sequence exactly; chunk completion order is
irrelevant because `asyncio.gather` returns results in submission order,
and intra-chunk order is arbitrary in the hypothesis. -/
theorem getTracks_order (resp : List Nat → PyVal) (trackIds : List Nat)
    (chunksData : List (List TrackData))
    (hn : trackIds.Nodup)
    (hresp : (chunkIds trackIds).map resp = chunksData.map PyVal.plist)
    (hperm : (chunksData.flatten.map TrackData.id).Perm trackIds) :
    getTracks resp trackIds =
      Except.ok (List.insertionSort (keyLe trackIds) chunksData.flatten) ∧
      (List.insertionSort (keyLe trackIds) chunksData.flatten).map TrackData.id =
        trackIds := by
  constructor
  · have hall : (chunksData.flatten.all fun t => decide (t.id ∈ trackIds)) = true := by
      rw [List.all_eq_true]
      intro t ht
      rw [decide_eq_true_eq]
      exact hperm.mem_iff.mp (List.mem_map_of_mem _ ht)
    unfold getTracks
    rw [hresp, chainFromIterable_ok]
    simp [sortTracks, hall]
  · exact insertionSort_key_order trackIds chunksData.flatten hn hperm

/-- Witness for C1: two requested ids in one chunk whose response returns
the items in the opposite order; the result is re-sorted to the input id
order. -/
theorem getTracks_order_witness :
    ([2, 1] : List Nat).Nodup ∧
      ((chunkIds [2, 1]).map fun c =>
          if c = [2, 1] then
            PyVal.plist [⟨1, some "a", "track"⟩, ⟨2, some "b", "track"⟩]
          else PyVal.pfalse) =
        [[(⟨1, some "a", "track"⟩ : TrackData), ⟨2, some "b", "track"⟩]].map
          PyVal.plist ∧
      (([[(⟨1, some "a", "track"⟩ : TrackData),
            ⟨2, some "b", "track"⟩]].flatten.map TrackData.id).Perm [2, 1]) ∧
      getTracks
          (fun c =>
            if c = [2, 1] then
              PyVal.plist [⟨1, some "a", "track"⟩, ⟨2, some "b", "track"⟩]
            else PyVal.pfalse) [2, 1] =
        Except.ok (List.insertionSort (keyLe [2, 1])
          [[(⟨1, some "a", "track"⟩ : TrackData), ⟨2, some "b", "track"⟩]].flatten) ∧
      (List.insertionSort (keyLe [2, 1])
          [[(⟨1, some "a", "track"⟩ : TrackData),
              ⟨2, some "b", "track"⟩]].flatten).map TrackData.id = [2, 1] := by
  refine ⟨by decide, rfl, List.Perm.swap 2 1 [], ?_⟩
  exact getTracks_order _ [2, 1]
    [[⟨1, some "a", "track"⟩, ⟨2, some "b", "track"⟩]]
    (by decide) rfl (List.Perm.swap 2 1 [])

/-- C5 counterexample: a single-chunk request whose chunk fails.  The
whole operation does fail fast (no partial result), but the raised error
is the `TypeError` produced by flattening the `False` placeholder that
`get_obj_from` returned — not a `LookupError` as the claim states. -/
theorem getTracks_failfast_counterexample :
    getTracks (fun _ => PyVal.pfalse) [1] = Except.error PyErr.typeError ∧
      getTracks (fun _ => PyVal.pfalse) [1] ≠ Except.error PyErr.lookupError :=
  ⟨rfl, fun h => PyErr.noConfusion (Except.error.inj h)⟩

/-- C5 amended: batch lookup is fail-fast, but with `TypeError` rather
than `LookupError`.  If any chunk request fails (transport failure or
unparseable response, i.e. `get_obj_from` returned `False` for that
chunk), the whole `get_tracks` operation fails — flattening the gathered
responses raises `TypeError` on the `False` placeholder — and no partial
result list is returned to the caller. -/
theorem getTracks_failfast (resp : List Nat → PyVal) (trackIds : List Nat)
    (c : List Nat) (hc : c ∈ chunkIds trackIds) (hf : resp c = PyVal.pfalse) :
    getTracks resp trackIds = Except.error PyErr.typeError := by
  have hmem : PyVal.pfalse ∈ (chunkIds trackIds).map resp := by
    rw [← hf]
    exact List.mem_map_of_mem resp hc
  unfold getTracks
  rw [chainFromIterable_pfalse _ hmem]

/-- Witness for C5 amended: one failing chunk out of one. -/
theorem getTracks_failfast_witness :
    ([1] : List Nat) ∈ chunkIds [1] ∧
      (fun _ : List Nat => PyVal.pfalse) [1] = PyVal.pfalse ∧
      getTracks (fun _ => PyVal.pfalse) [1] = Except.error PyErr.typeError := by
  refine ⟨by decide, rfl, ?_⟩
  exact getTracks_failfast _ [1] [1] (by decide) rfl

end Sclib
